import Mathlib

/-!
Shallow embedding of the reconciliation core of the repository:

* `doUpdateClusterEndpoints` (src/pkg/ctl/utils/update_cluster_endpoint_access.go)
  — the Kubernetes API endpoint-access reconciler.  External collaborator
  calls (loading the config, auth checks, describing the current state, the
  mutating update call) are passed in as explicit inputs; the outcome records
  the returned error, the implicit `changed` verdict, and a trace of every
  invocation of the mutating update API.

* `UpdateAWSNode` (src/unnamed/part_001, package defaultaddons) — the
  `aws-node` add-on reconciler.  The Kubernetes client, the asset loader and
  the per-resource create-or-replace collaborator are fields of an explicit
  environment; the trace records whether the manifest was loaded and every
  create-or-replace invocation.  A Go index-out-of-range panic (the
  `Containers[0]` access) is modelled as an explicit `panic` result.
-/

deriving instance DecidableEq for Except

/-- Result of validating a desired endpoint-access configuration. -/
inductive ValidationResult where
  | ok
  | noAccessError
  | privateOnlyWarning
deriving DecidableEq, Repr

/-- Modelled from the spec: `ValidateClusterEndpointConfig` and
`ErrClusterEndpointPrivateOnly` live in the `api` package
(pkg/apis/eksctl.io/v1alpha5), which is not part of the supplied sources.
Spec 4.1: fails with `NoAccessError` when both `privateAccess` and
`publicAccess` are false; succeeds with a `PrivateOnlyWarning` when
`privateAccess=true, publicAccess=false`; otherwise succeeds with no
warning. -/
def ValidateClusterEndpointConfig (privateAccess publicAccess : Bool) : ValidationResult :=
  if !privateAccess && !publicAccess then .noAccessError
  else if privateAccess && !publicAccess then .privateOnlyWarning
  else .ok

/-- Errors the endpoint reconciler can return. -/
inductive EndpointError where
  | noAccess
  | apiError (msg : String)
deriving DecidableEq, Repr

/-- Observable outcome of one run of `doUpdateClusterEndpoints`:
the returned error (if any), the implicit `changed` verdict, the arguments
of every call of the mutating `UpdateClusterConfigForEndpoints` API, and
which read-only steps were reached. -/
structure EndpointOutcome where
  result : Except EndpointError Unit
  changed : Bool
  updateCalls : List (Bool × Bool)
  describedIntent : Bool
  validated : Bool
  warned : Bool
deriving Repr

/-- Per-field resolution of the desired access value
(update_cluster_endpoint_access.go lines 86–92): use the caller's override
exactly when the flag was explicitly set, else retain the current value. -/
def resolveAccess (isSet override cur : Bool) : Bool :=
  if isSet then override else cur

/-- Embedding of `doUpdateClusterEndpoints`
(update_cluster_endpoint_access.go lines 78–131), starting after the
external loads (config, ctl, auth, current state).  `curPrivate, curPublic`
is the current live state, `newPrivate, newPublic` the raw flag values,
`privateSet, publicSet` the result of `accessFlagsSet` (was each flag
explicitly supplied), `plan` is `cmd.Plan`, and `updateApi` the mutating
`UpdateClusterConfigForEndpoints` collaborator. -/
def doUpdateClusterEndpoints (curPrivate curPublic newPrivate newPublic : Bool)
    (privateSet publicSet : Bool) (plan : Bool)
    (updateApi : Bool → Bool → Except EndpointError Unit) : EndpointOutcome :=
  let resPrivate := resolveAccess privateSet newPrivate curPrivate
  let resPublic := resolveAccess publicSet newPublic curPublic
  -- Nothing changed?  (line 95)
  if resPrivate == curPrivate && resPublic == curPublic then
    { result := .ok (), changed := false, updateCalls := [],
      describedIntent := false, validated := false, warned := false }
  else
    -- LogIntendedAction (line 107), then ValidateClusterEndpointConfig (line 111)
    match ValidateClusterEndpointConfig resPrivate resPublic with
    | .noAccessError =>
      { result := .error .noAccess, changed := false, updateCalls := [],
        describedIntent := true, validated := true, warned := false }
    | v =>
      let w := v == .privateOnlyWarning
      if plan then
        { result := .ok (), changed := true, updateCalls := [],
          describedIntent := true, validated := true, warned := w }
      else
        match updateApi resPrivate resPublic with
        | .error e =>
          { result := .error e, changed := false, updateCalls := [(resPrivate, resPublic)],
            describedIntent := true, validated := true, warned := w }
        | .ok _ =>
          { result := .ok (), changed := true, updateCalls := [(resPrivate, resPublic)],
            describedIntent := true, validated := true, warned := w }

/-! The add-on reconciler. -/

/-- One manifest item: its resource kind and, for workload kinds, the images
of its pod-template containers (`Spec.Template.Spec.Containers`, one image
string per container). -/
structure ResourceItem where
  kind : String
  containers : List String
deriving DecidableEq, Repr

/-- Errors the add-on reconciler can return. -/
inductive AddonError where
  | formatError (image : String)
  | getError (msg : String)
  | loadError (msg : String)
  | resourceError (msg : String)
  | applyError (msg : String)
deriving DecidableEq, Repr

/-- Result of probing for the `aws-node` DaemonSet. -/
inductive GetResult where
  | found
  | notFound
  | apiError (msg : String)
deriving DecidableEq, Repr

/-- Whether the probe found the primary workload. -/
def GetResult.isFound : GetResult → Bool
  | .found => true
  | _ => false

/-- Result of one run of `UpdateAWSNode`: success with the `changed` verdict,
an error, or a Go runtime panic (index out of range). -/
inductive AddonResult where
  | ok (changed : Bool)
  | err (e : AddonError)
  | panic
deriving DecidableEq, Repr

/-- Trace of a run of `UpdateAWSNode`: whether `LoadAsset` was invoked and
the argument of every `CreateOrReplace` call, in order. -/
structure AddonTrace where
  loadedManifest : Bool
  calls : List (ResourceItem × Bool)
deriving DecidableEq, Repr

/-- External collaborators of `UpdateAWSNode`: the typed DaemonSet probe,
the asset loader, the region→account-id table (`api.EKSResourceAccountID`,
outside the supplied sources, kept abstract), the raw-resource constructor's
error oracle, and the create-or-replace collaborator. -/
structure AddonEnv where
  getAWSNode : GetResult
  loadAsset : Except AddonError (List ResourceItem)
  accountID : String → String
  newRawResource : ResourceItem → Except AddonError Unit
  createOrReplace : ResourceItem → Bool → Except AddonError String

/-- Image suffix constant of part_001: `awsNodeImageSuffix`. -/
def awsNodeImageSuffix : String := ".amazonaws.com/amazon-k8s-cni"

/-- Go `strings.Split(s, ":")` for the single-character separator `:`,
over the character list of the string: splits at every occurrence, and the
empty string yields one empty part. -/
def splitOnColon : List Char → List (List Char)
  | [] => [[]]
  | c :: rest =>
    match splitOnColon rest, c == ':' with
    | r, true => [] :: r
    | [], false => [[c]]
    | g :: gs, false => (c :: g) :: gs

/-- The registry-rewrite transform of part_001 lines 49–57: split the image
on `:`; any count of parts other than two is a format error; when the host
part ends with `awsNodeImageSuffix`, rewrite the host to the account- and
region-qualified registry host, keeping the tag; otherwise leave the image
untouched. -/
def rewriteImage (accountID region image : String) : Except AddonError String :=
  match splitOnColon image.toList with
  | [host, tag] =>
    if List.isSuffixOf awsNodeImageSuffix.toList host then
      .ok (accountID ++ ".dkr.ecr." ++ region ++ awsNodeImageSuffix ++ ":" ++ String.mk tag)
    else
      .ok image
  | _ => .error (.formatError image)

/-- Result of the per-item DaemonSet transform: the (possibly rewritten)
item, a format error, or a panic from indexing an empty container list. -/
inductive TransformResult where
  | ok (item : ResourceItem)
  | err (e : AddonError)
  | panic
deriving DecidableEq, Repr

/-- The DaemonSet branch of the loop body (part_001 lines 47–58): for a
DaemonSet, rewrite the image of container 0; the Go code indexes
`Containers[0]` unconditionally, so an empty container list is a runtime
panic.  Other kinds pass through unchanged. -/
def transformDaemonSet (env : AddonEnv) (region : String) (item : ResourceItem) :
    TransformResult :=
  if item.kind == "DaemonSet" then
    match item.containers with
    | [] => .panic
    | image :: others =>
      match rewriteImage (env.accountID region) region image with
      | .error e => .err e
      | .ok image2 => .ok { kind := item.kind, containers := image2 :: others }
  else
    .ok item

/-- Verdict of the item loop, without the trace of calls. -/
inductive LoopResult where
  | ok
  | err (e : AddonError)
  | panic
deriving DecidableEq, Repr

/-- The item loop of `UpdateAWSNode` (part_001 lines 42–72): build the raw
resource, run the DaemonSet transform, skip CustomResourceDefinition items
in plan mode, otherwise create-or-replace; any error aborts the remaining
items.  Also returns the `CreateOrReplace` calls made, in order. -/
def processItems (env : AddonEnv) (region : String) (plan : Bool) :
    List ResourceItem → LoopResult × List (ResourceItem × Bool)
  | [] => (.ok, [])
  | item :: rest =>
    match env.newRawResource item with
    | .error e => (.err e, [])
    | .ok _ =>
      match transformDaemonSet env region item with
      | .panic => (.panic, [])
      | .err e => (.err e, [])
      | .ok item2 =>
        if item2.kind == "CustomResourceDefinition" && plan then
          processItems env region plan rest
        else
          match env.createOrReplace item2 plan with
          | .error e => (.err e, [(item2, plan)])
          | .ok _ =>
            let r := processItems env region plan rest
            (r.1, (item2, plan) :: r.2)

/-- Embedding of `UpdateAWSNode` (part_001 lines 26–81): probe for the
`aws-node` DaemonSet (not found is a soft skip returning `changed=false`),
load the manifest, run the item loop, and finally report `changed=true` in
plan mode and `changed=false` in apply mode. -/
def UpdateAWSNode (env : AddonEnv) (region : String) (plan : Bool) :
    AddonResult × AddonTrace :=
  match env.getAWSNode with
  | .notFound => (.ok false, { loadedManifest := false, calls := [] })
  | .apiError msg => (.err (.getError msg), { loadedManifest := false, calls := [] })
  | .found =>
    match env.loadAsset with
    | .error e => (.err e, { loadedManifest := true, calls := [] })
    | .ok items =>
      match processItems env region plan items with
      | (.ok, calls) =>
        if plan then (.ok true, { loadedManifest := true, calls := calls })
        else (.ok false, { loadedManifest := true, calls := calls })
      | (.err e, calls) => (.err e, { loadedManifest := true, calls := calls })
      | (.panic, calls) => (.panic, { loadedManifest := true, calls := calls })

example :
    rewriteImage "602401143452" "us-west-2"
      "123456789012.dkr.ecr.us-west-2.amazonaws.com/amazon-k8s-cni:v1.7.0" =
      .ok "602401143452.dkr.ecr.us-west-2.amazonaws.com/amazon-k8s-cni:v1.7.0" := by
  decide

/-- C3: if the resolved desired state equals the current state exactly, the
endpoint reconcile returns success with `changed=false`, performs no
validation, and makes no mutating call, for every `planMode`. -/
theorem reconcile_noop_when_equal (curP curQ nP nQ pS qS plan : Bool)
    (api : Bool → Bool → Except EndpointError Unit)
    (hP : resolveAccess pS nP curP = curP) (hQ : resolveAccess qS nQ curQ = curQ) :
    doUpdateClusterEndpoints curP curQ nP nQ pS qS plan api =
      { result := .ok (), changed := false, updateCalls := [],
        describedIntent := false, validated := false, warned := false } := by
  simp [doUpdateClusterEndpoints, hP, hQ]

/-- Witness for C3 at a concrete input. -/
theorem reconcile_noop_when_equal_witness :
    doUpdateClusterEndpoints true false false false false false true
        (fun _ _ => Except.ok ()) =
      { result := .ok (), changed := false, updateCalls := [],
        describedIntent := false, validated := false, warned := false } :=
  reconcile_noop_when_equal true false false false false false true
    (fun _ _ => Except.ok ()) rfl rfl

/-- C4: if the resolved desired state differs from the current state and
passes validation, then in plan mode the reconcile describes the intended
change, returns success reporting a change, and makes zero calls of the
mutating update API. -/
theorem plan_mode_reports_change_without_mutation (curP curQ nP nQ pS qS : Bool)
    (api : Bool → Bool → Except EndpointError Unit)
    (hdiff : ¬(resolveAccess pS nP curP = curP ∧ resolveAccess qS nQ curQ = curQ))
    (hval : ValidateClusterEndpointConfig (resolveAccess pS nP curP)
        (resolveAccess qS nQ curQ) ≠ .noAccessError) :
    (doUpdateClusterEndpoints curP curQ nP nQ pS qS true api).result = .ok () ∧
    (doUpdateClusterEndpoints curP curQ nP nQ pS qS true api).changed = true ∧
    (doUpdateClusterEndpoints curP curQ nP nQ pS qS true api).updateCalls = [] ∧
    (doUpdateClusterEndpoints curP curQ nP nQ pS qS true api).describedIntent = true := by
  cases pS <;> cases qS <;> cases curP <;> cases curQ <;> cases nP <;> cases nQ <;>
    simp_all [doUpdateClusterEndpoints, resolveAccess, ValidateClusterEndpointConfig]

/-- Helper: every invocation of the mutating update API carries exactly the
resolved desired state, and can only happen after validation did not fail
fatally. -/
theorem updateCalls_spec (curP curQ nP nQ pS qS plan : Bool)
    (api : Bool → Bool → Except EndpointError Unit) :
    ∀ c ∈ (doUpdateClusterEndpoints curP curQ nP nQ pS qS plan api).updateCalls,
      c = (resolveAccess pS nP curP, resolveAccess qS nQ curQ) ∧
      ValidateClusterEndpointConfig (resolveAccess pS nP curP) (resolveAccess qS nQ curQ)
        ≠ .noAccessError := by
  intro c hc
  simp only [doUpdateClusterEndpoints] at hc
  split at hc
  · simp at hc
  · cases hv : ValidateClusterEndpointConfig (resolveAccess pS nP curP)
        (resolveAccess qS nQ curQ) <;>
      cases plan <;>
      cases hapi : api (resolveAccess pS nP curP) (resolveAccess qS nQ curQ) <;>
      simp_all

/-- Witness for C4 at a concrete input. -/
theorem plan_mode_reports_change_without_mutation_witness :
    (doUpdateClusterEndpoints false true true true true false true
        (fun _ _ => Except.ok ())).changed = true ∧
    (doUpdateClusterEndpoints false true true true true false true
        (fun _ _ => Except.ok ())).updateCalls = [] := by
  have h := plan_mode_reports_change_without_mutation false true true true true false
    (fun _ _ => Except.ok ()) (by decide) (by decide)
  exact ⟨h.2.1, h.2.2.1⟩

/-- C1: whenever the resolved desired state differs from the current state
and has both access flags false, the endpoint reconcile returns the
`NoAccess` validation error and never invokes the mutating update API;
moreover, on every input the mutating API is never called with both access
flags false. -/
theorem noAccess_rejected_before_mutation (curP curQ nP nQ pS qS plan : Bool)
    (api : Bool → Bool → Except EndpointError Unit) :
    ((¬(resolveAccess pS nP curP = curP ∧ resolveAccess qS nQ curQ = curQ)) →
      resolveAccess pS nP curP = false → resolveAccess qS nQ curQ = false →
      (doUpdateClusterEndpoints curP curQ nP nQ pS qS plan api).result
          = .error .noAccess ∧
      (doUpdateClusterEndpoints curP curQ nP nQ pS qS plan api).updateCalls = []) ∧
    (∀ p q, (p, q) ∈ (doUpdateClusterEndpoints curP curQ nP nQ pS qS plan api).updateCalls →
      p = true ∨ q = true) := by
  constructor
  · intro hdiff hP hQ
    cases curP <;> cases curQ <;>
      simp_all [doUpdateClusterEndpoints, ValidateClusterEndpointConfig]
  · intro p q hpq
    have h := updateCalls_spec curP curQ nP nQ pS qS plan api (p, q) hpq
    have hv := h.2
    have hp := congrArg Prod.fst h.1
    have hq := congrArg Prod.snd h.1
    simp only at hp hq
    subst hp hq
    cases hrp : resolveAccess pS nP curP <;>
      cases hrq : resolveAccess qS nQ curQ <;>
      simp_all [ValidateClusterEndpointConfig]

/-- Witness for C1 at a concrete input: current (true, true), both flags
explicitly set to false. -/
theorem noAccess_rejected_before_mutation_witness :
    (doUpdateClusterEndpoints true true false false true true false
        (fun _ _ => Except.ok ())).result = .error .noAccess ∧
    (doUpdateClusterEndpoints true true false false true true false
        (fun _ _ => Except.ok ())).updateCalls = [] :=
  (noAccess_rejected_before_mutation true true false false true true false
    (fun _ _ => Except.ok ())).1 (by decide) (by decide) (by decide)

/-- C5: the resolved desired value of each access field equals the caller's
override exactly when the flag was explicitly supplied (including an
explicit false) and equals the current live value when it was not; an unset
override never influences the outcome, and every mutating call carries the
per-field resolution. -/
theorem override_resolution_per_field (curP curQ nP nQ a b : Bool)
    (pS qS plan : Bool) (api : Bool → Bool → Except EndpointError Unit) :
    (resolveAccess true a curP = a ∧ resolveAccess false a curP = curP) ∧
    (pS = false → doUpdateClusterEndpoints curP curQ a nQ pS qS plan api
        = doUpdateClusterEndpoints curP curQ b nQ pS qS plan api) ∧
    (qS = false → doUpdateClusterEndpoints curP curQ nP a pS qS plan api
        = doUpdateClusterEndpoints curP curQ nP b pS qS plan api) ∧
    (∀ c ∈ (doUpdateClusterEndpoints curP curQ nP nQ pS qS plan api).updateCalls,
      c = (resolveAccess pS nP curP, resolveAccess qS nQ curQ)) := by
  refine ⟨⟨rfl, rfl⟩, ?_, ?_, ?_⟩
  · intro h
    subst h
    simp [doUpdateClusterEndpoints, resolveAccess]
  · intro h
    subst h
    simp [doUpdateClusterEndpoints, resolveAccess]
  · intro c hc
    exact (updateCalls_spec curP curQ nP nQ pS qS plan api c hc).1

/-- Witness for C5 at a concrete input: with the private flag unset, the
override value is irrelevant to the outcome. -/
theorem override_resolution_per_field_witness :
    doUpdateClusterEndpoints false true true true false true false
        (fun _ _ => Except.ok ())
      = doUpdateClusterEndpoints false true false true false true false
        (fun _ _ => Except.ok ()) :=
  (override_resolution_per_field false true false true true false false true false
    (fun _ _ => Except.ok ())).2.1 rfl

/-- C6: when the resolved desired state is private-only (privateAccess=true,
publicAccess=false) and differs from the current state, validation yields
the private-only warning, which is surfaced but not treated as an error:
the reconcile does not abort, and in apply mode the mutating update API is
still invoked with the resolved state. -/
theorem private_only_warning_not_error (curP curQ nP nQ pS qS plan : Bool)
    (api : Bool → Bool → Except EndpointError Unit)
    (hP : resolveAccess pS nP curP = true) (hQ : resolveAccess qS nQ curQ = false)
    (hdiff : ¬(curP = true ∧ curQ = false)) :
    (doUpdateClusterEndpoints curP curQ nP nQ pS qS plan api).warned = true ∧
    (doUpdateClusterEndpoints curP curQ nP nQ pS qS plan api).validated = true ∧
    (plan = true →
      (doUpdateClusterEndpoints curP curQ nP nQ pS qS plan api).result = .ok () ∧
      (doUpdateClusterEndpoints curP curQ nP nQ pS qS plan api).changed = true) ∧
    (plan = false →
      (doUpdateClusterEndpoints curP curQ nP nQ pS qS plan api).updateCalls
        = [(true, false)]) := by
  cases curP <;> cases curQ <;> cases plan <;>
    cases hapi : api true false <;>
    simp_all [doUpdateClusterEndpoints, ValidateClusterEndpointConfig]

/-- Witness for C6 at a concrete input: current (false, true), both flags
explicitly set, desired (true, false), apply mode. -/
theorem private_only_warning_not_error_witness :
    (doUpdateClusterEndpoints false true true false true true false
        (fun _ _ => Except.ok ())).warned = true ∧
    (doUpdateClusterEndpoints false true true false true true false
        (fun _ _ => Except.ok ())).updateCalls = [(true, false)] := by
  have h := private_only_warning_not_error false true true false true true false
    (fun _ _ => Except.ok ()) (by decide) (by decide) (by decide)
  exact ⟨h.1, h.2.2.2 rfl⟩

/-- Helper: the DaemonSet transform cannot panic when every DaemonSet item
has at least one container. -/
theorem transformDaemonSet_no_panic (env : AddonEnv) (region : String)
    (item : ResourceItem) (h : item.kind = "DaemonSet" → item.containers ≠ []) :
    transformDaemonSet env region item ≠ TransformResult.panic := by
  unfold transformDaemonSet
  split
  · rename_i hk
    split
    · rename_i hc
      exact absurd hc (h (by simpa using hk))
    · split <;> simp
  · simp

/-- Helper: the DaemonSet transform never changes the resource kind. -/
theorem transformDaemonSet_kind_eq (env : AddonEnv) (region : String)
    (item item2 : ResourceItem)
    (h : transformDaemonSet env region item = TransformResult.ok item2) :
    item2.kind = item.kind := by
  unfold transformDaemonSet at h
  split at h
  · rename_i hk
    split at h
    · simp at h
    · split at h
      · simp at h
      · cases h
        simp [hk]
  · simp_all

/-- Helper: the item loop cannot panic when every DaemonSet item in the list
has at least one container. -/
theorem processItems_no_panic (env : AddonEnv) (region : String) (plan : Bool)
    (items : List ResourceItem)
    (h : ∀ item ∈ items, item.kind = "DaemonSet" → item.containers ≠ []) :
    (processItems env region plan items).1 ≠ LoopResult.panic := by
  induction items with
  | nil => simp [processItems]
  | cons item rest ih =>
    have hitem : item.kind = "DaemonSet" → item.containers ≠ [] :=
      h item (List.mem_cons_self item rest)
    have hrest := ih fun i hi => h i (List.mem_cons_of_mem item hi)
    simp only [processItems]
    cases hraw : env.newRawResource item with
    | error e => simp
    | ok u =>
      cases htr : transformDaemonSet env region item with
      | ok item2 =>
        dsimp only
        split
        · exact hrest
        · cases hcr : env.createOrReplace item2 plan with
          | error e => simp
          | ok s => simpa using hrest
      | err e => simp
      | panic => exact absurd htr (transformDaemonSet_no_panic env region item hitem)

/-- Helper: in plan mode, no item passed to `CreateOrReplace` by the item
loop has the CustomResourceDefinition kind. -/
theorem processItems_plan_no_crd_calls (env : AddonEnv) (region : String)
    (items : List ResourceItem) :
    ∀ c ∈ (processItems env region true items).2,
      ¬(c.1.kind = "CustomResourceDefinition") := by
  induction items with
  | nil => simp [processItems]
  | cons item rest ih =>
    intro c hc
    simp only [processItems] at hc
    cases hraw : env.newRawResource item with
    | error e => simp [hraw] at hc
    | ok u =>
      rw [hraw] at hc
      cases htr : transformDaemonSet env region item with
      | ok item2 =>
        rw [htr] at hc
        dsimp only at hc
        by_cases hk : item2.kind = "CustomResourceDefinition"
        · simp [hk] at hc
          exact ih c hc
        · have hkb : (item2.kind == "CustomResourceDefinition") = false := by
            simpa using hk
          rw [hkb] at hc
          simp only [Bool.false_and, Bool.false_eq_true, if_false] at hc
          cases hcr : env.createOrReplace item2 true with
          | error e =>
            rw [hcr] at hc
            simp at hc
            intro hck
            rw [hc] at hck
            exact hk (by simpa using hck)
          | ok s =>
            rw [hcr] at hc
            simp at hc
            rcases hc with hc | hc
            · intro hck
              rw [hc] at hck
              exact hk (by simpa using hck)
            · exact ih c hc
      | err e => simp [htr] at hc
      | panic => simp [htr] at hc

/-- C8: a CustomResourceDefinition manifest item is skipped by the add-on
item loop exactly when planMode=true — the loop continues with the remaining
items and, in plan mode, never passes any CustomResourceDefinition item to
create-or-replace — and the item is applied normally (passed to
create-or-replace) when planMode=false, all else equal. -/
theorem crd_skip_in_plan_mode (env : AddonEnv) (region : String)
    (item : ResourceItem) (rest items : List ResourceItem)
    (hkind : item.kind = "CustomResourceDefinition")
    (hraw : env.newRawResource item = .ok ()) :
    processItems env region true (item :: rest) = processItems env region true rest ∧
    (processItems env region false (item :: rest)).2.head? = some (item, false) ∧
    (∀ c ∈ (processItems env region true items).2,
      ¬(c.1.kind = "CustomResourceDefinition")) := by
  have htr : transformDaemonSet env region item = .ok item := by
    unfold transformDaemonSet
    rw [hkind]
    simp
  refine ⟨?_, ?_, processItems_plan_no_crd_calls env region items⟩
  · simp only [processItems, hraw, htr]
    rw [hkind]
    simp
  · simp only [processItems, hraw, htr]
    rw [hkind]
    cases hcr : env.createOrReplace item false <;> simp [hcr]

/-- Witness for C8 at a concrete input. -/
theorem crd_skip_in_plan_mode_witness :
    processItems
      { getAWSNode := .found, loadAsset := .ok [],
        accountID := fun _ => "602401143452",
        newRawResource := fun _ => .ok (),
        createOrReplace := fun _ _ => .ok "created" } "us-west-2" true
      [{ kind := "CustomResourceDefinition", containers := [] }]
      = processItems
        { getAWSNode := .found, loadAsset := .ok [],
          accountID := fun _ => "602401143452",
          newRawResource := fun _ => .ok (),
          createOrReplace := fun _ _ => .ok "created" } "us-west-2" true [] :=
  (crd_skip_in_plan_mode _ "us-west-2"
    { kind := "CustomResourceDefinition", containers := [] } [] [] rfl rfl).1

/-- C9: when the aws-node DaemonSet probe reports not-found, `UpdateAWSNode`
returns changed=false and no error, does not load the manifest, and makes
no create-or-replace call, for every region and planMode. -/
theorem addon_absent_soft_skip (env : AddonEnv) (region : String) (plan : Bool)
    (h : env.getAWSNode = GetResult.notFound) :
    UpdateAWSNode env region plan
      = (.ok false, { loadedManifest := false, calls := [] }) := by
  simp [UpdateAWSNode, h]

/-- Witness for C9 at a concrete input. -/
theorem addon_absent_soft_skip_witness :
    UpdateAWSNode
      { getAWSNode := .notFound, loadAsset := .ok [],
        accountID := fun _ => "602401143452",
        newRawResource := fun _ => .ok (),
        createOrReplace := fun _ _ => .ok "created" } "us-west-2" true
      = (.ok false, { loadedManifest := false, calls := [] }) :=
  addon_absent_soft_skip _ "us-west-2" true rfl

/-- C10: the item loop accesses container 0 of every DaemonSet item without
checking non-emptiness: `UpdateAWSNode` never panics when every DaemonSet
item of the loaded manifest has at least one container, and a DaemonSet
item with an empty container list makes the run panic (index out of
range). -/
theorem daemonset_empty_containers_panics :
    (∀ (env : AddonEnv) (region : String) (plan : Bool),
      (∀ items, env.loadAsset = .ok items →
        ∀ item ∈ items, item.kind = "DaemonSet" → item.containers ≠ []) →
      (UpdateAWSNode env region plan).1 ≠ .panic) ∧
    (∀ (env : AddonEnv) (region : String) (plan : Bool) (item : ResourceItem)
        (rest : List ResourceItem),
      item.kind = "DaemonSet" → item.containers = [] →
      env.getAWSNode = .found → env.loadAsset = .ok (item :: rest) →
      env.newRawResource item = .ok () →
      (UpdateAWSNode env region plan).1 = .panic) := by
  constructor
  · intro env region plan h
    unfold UpdateAWSNode
    cases hg : env.getAWSNode with
    | notFound => simp
    | apiError m => simp
    | found =>
      cases hl : env.loadAsset with
      | error e => simp
      | ok items =>
        have hnp := processItems_no_panic env region plan items (h items hl)
        rcases hpi : processItems env region plan items with ⟨res, calls⟩
        rw [hpi] at hnp
        cases res with
        | ok => cases plan <;> simp [hpi]
        | err e => simp [hpi]
        | panic => simp at hnp
  · intro env region plan item rest hkind hcont hg hl hraw
    have htr : transformDaemonSet env region item = .panic := by
      unfold transformDaemonSet
      rw [hkind, hcont]
      simp
    simp [UpdateAWSNode, hg, hl, processItems, hraw, htr]

/-- Witness for C10 at a concrete input: a manifest whose only item is a
DaemonSet with an empty container list panics. -/
theorem daemonset_empty_containers_panics_witness :
    (UpdateAWSNode
      { getAWSNode := .found,
        loadAsset := .ok [{ kind := "DaemonSet", containers := [] }],
        accountID := fun _ => "602401143452",
        newRawResource := fun _ => .ok (),
        createOrReplace := fun _ _ => .ok "created" } "us-west-2" true).1
      = .panic :=
  daemonset_empty_containers_panics.2 _ "us-west-2" true
    { kind := "DaemonSet", containers := [] } [] rfl rfl rfl rfl rfl

/-- Helper: an image reference whose colon-split does not have exactly two
parts is rejected by the registry-rewrite transform as a format error. -/
theorem rewriteImage_formatError (accountID region image : String)
    (hlen : (splitOnColon image.toList).length ≠ 2) :
    rewriteImage accountID region image = .error (.formatError image) := by
  unfold rewriteImage
  rcases hs : splitOnColon image.toList with _ | ⟨a, _ | ⟨b, _ | ⟨c, l⟩⟩⟩ <;>
    simp_all

/-- C7: for a DaemonSet item's container image, a reference with exactly one
colon whose host ends with the upstream registry suffix is rewritten to the
account- and region-qualified registry host with the tag preserved; a
reference with exactly one colon not ending with the suffix is left
untouched with no error; a reference with zero or several colons makes the
add-on update fail with a format error. -/
theorem image_rewrite_cases (accountID region image : String)
    (host tag : List Char) :
    (splitOnColon image.toList = [host, tag] →
      List.isSuffixOf awsNodeImageSuffix.toList host = true →
      rewriteImage accountID region image =
        .ok (accountID ++ ".dkr.ecr." ++ region ++ awsNodeImageSuffix ++ ":"
          ++ String.mk tag)) ∧
    (splitOnColon image.toList = [host, tag] →
      List.isSuffixOf awsNodeImageSuffix.toList host = false →
      rewriteImage accountID region image = .ok image) ∧
    ((splitOnColon image.toList).length ≠ 2 →
      rewriteImage accountID region image = .error (.formatError image)) ∧
    (∀ (env : AddonEnv) (plan : Bool) (others : List String) (item : ResourceItem),
      item.kind = "DaemonSet" → item.containers = image :: others →
      env.getAWSNode = .found → env.loadAsset = .ok [item] →
      env.newRawResource item = .ok () →
      (splitOnColon image.toList).length ≠ 2 →
      (UpdateAWSNode env region plan).1 = .err (.formatError image)) := by
  refine ⟨?_, ?_, rewriteImage_formatError accountID region image, ?_⟩
  · intro hs hsuf
    unfold rewriteImage
    rw [hs]
    dsimp only
    rw [if_pos hsuf]
  · intro hs hsuf
    unfold rewriteImage
    rw [hs]
    dsimp only
    rw [if_neg (fun hcon => by
      rw [hcon] at hsuf
      simp at hsuf)]
  · intro env plan others item hkind hcont hg hl hraw hlen
    have htr : transformDaemonSet env region item = .err (.formatError image) := by
      unfold transformDaemonSet
      rw [hkind, hcont]
      simp [rewriteImage_formatError (env.accountID region) region image hlen]
    simp [UpdateAWSNode, hg, hl, processItems, hraw, htr]

/-- Witness for C7 on the spec's concrete example image. -/
theorem image_rewrite_cases_witness :
    rewriteImage "602401143452" "us-west-2"
        "123456789012.dkr.ecr.us-west-2.amazonaws.com/amazon-k8s-cni:v1.7.0"
      = .ok ("602401143452" ++ ".dkr.ecr." ++ "us-west-2" ++ awsNodeImageSuffix ++ ":"
          ++ String.mk "v1.7.0".toList) :=
  (image_rewrite_cases "602401143452" "us-west-2"
      "123456789012.dkr.ecr.us-west-2.amazonaws.com/amazon-k8s-cni:v1.7.0"
      "123456789012.dkr.ecr.us-west-2.amazonaws.com/amazon-k8s-cni".toList
      "v1.7.0".toList).1 (by decide) (by decide)

/-- C2 (amended): the plan/apply parity of the `changed` verdict holds for
the endpoint reconciler — a plan run returns the same `changed` verdict as
an apply run whose mutation succeeds, while performing no mutation — but
not for the add-on reconciler: every successful `UpdateAWSNode` run returns
`changed = (planMode and add-on present)`, so a plan run reports
`changed=true` where the corresponding apply run reports `changed=false`. -/
theorem plan_apply_changed_parity_amended :
    (∀ (curP curQ nP nQ pS qS : Bool) (api : Bool → Bool → Except EndpointError Unit),
      (∀ p q, api p q = Except.ok ()) →
      (doUpdateClusterEndpoints curP curQ nP nQ pS qS true api).changed
        = (doUpdateClusterEndpoints curP curQ nP nQ pS qS false api).changed ∧
      (doUpdateClusterEndpoints curP curQ nP nQ pS qS true api).updateCalls = []) ∧
    (∀ (env : AddonEnv) (region : String) (plan changed : Bool) (t : AddonTrace),
      UpdateAWSNode env region plan = (.ok changed, t) →
      changed = (plan && env.getAWSNode.isFound)) := by
  constructor
  · intro curP curQ nP nQ pS qS api h
    cases pS <;> cases qS <;> cases curP <;> cases curQ <;> cases nP <;> cases nQ <;>
      simp_all [doUpdateClusterEndpoints, resolveAccess, ValidateClusterEndpointConfig]
  · intro env region plan changed t h
    unfold UpdateAWSNode at h
    cases hg : env.getAWSNode with
    | notFound =>
      rw [hg] at h
      simp at h
      simp_all [GetResult.isFound]
    | apiError m =>
      rw [hg] at h
      simp at h
    | found =>
      rw [hg] at h
      dsimp only at h
      simp only [GetResult.isFound, Bool.and_true]
      cases hl : env.loadAsset with
      | error e =>
        rw [hl] at h
        simp at h
      | ok items =>
        rw [hl] at h
        dsimp only at h
        rcases hpi : processItems env region plan items with ⟨res, calls⟩
        rw [hpi] at h
        cases res with
        | ok =>
          cases plan <;> simp_all
        | err e => simp at h
        | panic => simp at h

/-- Witness for C2's amended theorem at a concrete endpoint input. -/
theorem plan_apply_changed_parity_amended_witness :
    (doUpdateClusterEndpoints false true true true true false true
        (fun _ _ => Except.ok ())).changed
      = (doUpdateClusterEndpoints false true true true true false false
        (fun _ _ => Except.ok ())).changed :=
  (plan_apply_changed_parity_amended.1 false true true true true false
    (fun _ _ => Except.ok ()) (fun _ _ => rfl)).1

/-- Counterexample for C2 as stated: with the add-on present and an empty
manifest, `UpdateAWSNode` returns `changed=true` in plan mode and
`changed=false` in apply mode on the same input, so the plan run's
`changed` verdict differs from the apply run's. -/
theorem plan_apply_changed_parity_cex :
    (UpdateAWSNode
      { getAWSNode := .found, loadAsset := .ok [],
        accountID := fun _ => "602401143452",
        newRawResource := fun _ => .ok (),
        createOrReplace := fun _ _ => .ok "created" } "us-west-2" true).1
      = .ok true ∧
    (UpdateAWSNode
      { getAWSNode := .found, loadAsset := .ok [],
        accountID := fun _ => "602401143452",
        newRawResource := fun _ => .ok (),
        createOrReplace := fun _ _ => .ok "created" } "us-west-2" false).1
      = .ok false ∧
    AddonResult.ok true ≠ AddonResult.ok false := by
  refine ⟨rfl, rfl, ?_⟩
  decide
